import Mathlib

/-!
Verification development for the Copilot workload deployment orchestrator.

The repository sources embedded here:
- the workload deployer behaviour pinned by TestWorkloadDeployer_DeployWorkload,
  TestSvcDeployOpts_rdWebServiceStackConfiguration,
  TestSvcDeployOpts_stackConfiguration_worker and Test_validateTopicsExist
  in src/unnamed/part_001 (the implementation file of the deploy package is
  not part of the corpus, so those definitions are modelled from the
  specification, constrained by the expectations of the tests);
- the environment CloudFormation template src/unnamed/part_000;
- the describe-layer code in src/internal/pkg/template/env.go.

Hostnames are modelled as lists of DNS labels; the Go code stores them as
dot-separated strings.
-/

namespace CopilotDeploy

/-- A hostname as a list of DNS labels; rendered with dots between labels. -/
def renderHostname (labels : List String) : String :=
  String.intercalate "." labels

/-- An application record (config.Application): name and associated domain.
An empty label list models an application with no associated domain. -/
structure Application where
  name : String
  domain : List String
  deriving DecidableEq

/-- An environment record (config.Environment with CustomConfig): name and
the imported certificate ARNs (empty when no CustomConfig is present). -/
structure Environment where
  name : String
  importCertARNs : List String
  deriving DecidableEq

/-- How an alias relates to the Copilot-managed hosted-zone hierarchy. -/
inductive AliasClass
  | serviceLevel
  | rootDomain
  | envLevel
  | appLevel
  | outsideHostedZone
  deriving DecidableEq, Repr

/-- Modelled from the spec: the alias classifier of the Alias/Domain
Validator (section 4.1); its implementation is not under src. Classifies an
alias by its labels relative to the application domain: exactly one extra
label is a valid service-level alias; the alias equal to the domain is a
root-domain alias; envName.appName.domain is an environment-level alias;
label.appName.domain with another label is an application-level alias; any
other shape is outside the Copilot-managed hosted zones. Consistent with
every alias scenario of TestSvcDeployOpts_rdWebServiceStackConfiguration
and TestWorkloadDeployer_DeployWorkload in src/unnamed/part_001. -/
def classifyAlias (aliasLabels : List String) (appName envName : String)
    (domain : List String) : AliasClass :=
  if aliasLabels = domain then .rootDomain
  else
    match aliasLabels with
    | [] => .outsideHostedZone
    | l :: rest =>
      if rest = appName :: domain then
        (if l = envName then .envLevel else .appLevel)
      else if rest = domain then .serviceLevel
      else .outsideHostedZone

/-- Modelled from the spec: alias validation for load-balanced web services
(section 4.1); the implementation is not under src. Every alias must fall
inside one of the Copilot-managed hosted zones; the first alias outside
them short-circuits with the error pinned by the test case named
(fail to enable https alias because of invalid alias). -/
def validateLBWSAlias (aliases : List (List String)) (appName envName : String)
    (domain : List String) : Option String :=
  aliases.findSome? fun a =>
    match classifyAlias a appName envName domain with
    | .outsideHostedZone =>
        some ("alias \"" ++ renderHostname a ++
          "\" is not supported in hosted zones managed by Copilot")
    | _ => none

/-- Modelled from the spec: alias validation for request-driven web services
(section 4.1); the implementation is not under src. Service-level aliases
are valid; environment-level, application-level and root-domain aliases are
rejected with dedicated messages; aliases outside the Copilot hosted zones
are rejected as unmanaged. Messages are the ones pinned by
TestSvcDeployOpts_rdWebServiceStackConfiguration. -/
def validateRDSvcAlias (aliasLabels : List String) (appName envName : String)
    (domain : List String) : Option String :=
  match classifyAlias aliasLabels appName envName domain with
  | .serviceLevel => none
  | .envLevel =>
      some (renderHostname aliasLabels ++
        " is an environment-level alias, which is not supported yet")
  | .appLevel =>
      some (renderHostname aliasLabels ++
        " is an application-level alias, which is not supported yet")
  | .rootDomain =>
      some (renderHostname aliasLabels ++
        " is a root domain alias, which is not supported yet")
  | .outsideHostedZone =>
      some "alias is not supported in hosted zones that are not managed by Copilot"

/-- Strict lexicographic order on numeric version components. -/
def natListLt : List Nat → List Nat → Bool
  | [], [] => false
  | [], _ :: _ => true
  | _ :: _, [] => false
  | a :: as, b :: bs => a < b || (a = b && natListLt as bs)

/-- Splits a character list on a separator character. -/
def splitOnChar (sep : Char) : List Char → List (List Char)
  | [] => [[]]
  | c :: cs =>
    if c = sep then [] :: splitOnChar sep cs
    else
      match splitOnChar sep cs with
      | [] => [[c]]
      | h :: t => (c :: h) :: t

/-- Reads a non-empty list of decimal digits as a number. -/
def digitsToNat : List Char → Nat → Option Nat
  | [], acc => some acc
  | c :: cs, acc =>
    if 48 ≤ c.toNat ∧ c.toNat ≤ 57 then digitsToNat cs (acc * 10 + (c.toNat - 48))
    else none

/-- Parses a version string of the shape vMAJOR.MINOR.PATCH into its
numeric components (missing or malformed components parse as 0). -/
def parseSemver (v : String) : List Nat :=
  (splitOnChar '.' (v.data.dropWhile (fun c => c = 'v'))).map fun part =>
    (match part with
     | [] => none
     | cs => digitsToNat cs 0).getD 0

/-- Modelled from the spec: the schema-version comparison used by the alias
compatibility check; the implementation is not under src. -/
def semverLt (a b : String) : Bool :=
  natListLt (parseSemver a) (parseSemver b)

/-- The least application template version supporting aliases
(deploy.AliasLeastAppTemplateVersion), pinned by the test expectation
(alias is not compatible with application versions below v1.0.0). -/
def aliasLeastAppTemplateVersion : String := "v1.0.0"

/-- Modelled from the spec: the application version gate for alias usage
(section 4.1); the implementation is not under src. The version collaborator
outcome is passed in as data; a failed lookup and an incompatible version
produce the errors pinned by TestWorkloadDeployer_DeployWorkload. -/
def validateAppVersion (appName : String)
    (versionResult : Except String String) : Option String :=
  match versionResult with
  | .error e => some ("get version for app " ++ appName ++ ": " ++ e)
  | .ok v =>
      if semverLt v aliasLeastAppTemplateVersion then
        some ("alias is not compatible with application versions below " ++
          aliasLeastAppTemplateVersion)
      else none

/-- Modelled from the spec: version-then-shape validation for load-balanced
aliases (section 4.1, the version gate is checked before any alias string
parsing); the implementation is not under src. -/
def validateLBSvcAliasAndAppVersion (aliases : List (List String))
    (appName envName : String) (domain : List String)
    (versionResult : Except String String) : Option String :=
  if aliases.isEmpty then none
  else
    match validateAppVersion appName versionResult with
    | some e => some e
    | none => validateLBWSAlias aliases appName envName domain

/-- Modelled from the spec: the HTTP-alias validation of the load-balanced
stack configuration builder (section 4.4 step 2); the implementation is not
under src. With imported certificates an alias is mandatory and is checked
by the external certificate validator (its outcome passed as data); without
them a domain must be associated and the alias is validated against the
hosted zones after the version gate. All branches and messages are pinned
by TestWorkloadDeployer_DeployWorkload. -/
def validateALBRuntime (name : String) (app : Application) (env : Environment)
    (httpAliases : List (List String)) (certAliasResult : Option String)
    (versionResult : Except String String) : Option String :=
  let hasImportedCerts := !env.importCertARNs.isEmpty
  if httpAliases.isEmpty then
    if hasImportedCerts then
      some ("cannot deploy service " ++ name ++ " without http.alias to environment " ++
        env.name ++ " with certificate imported")
    else none
  else if hasImportedCerts then
    match certAliasResult with
    | some e =>
        some ("validate aliases against the imported certificate for env " ++
          env.name ++ ": " ++ e)
    | none => none
  else if !app.domain.isEmpty then
    validateLBSvcAliasAndAppVersion httpAliases app.name env.name app.domain versionResult
  else
    some ("cannot specify http.alias when application is not associated with a domain and env " ++
      env.name ++ " doesn\x27t import one or more certificates")

/-- Modelled from the spec: the NLB-alias validation of the load-balanced
stack configuration builder (sections 4.1 and 4.4); the implementation is
not under src. An NLB alias needs an associated domain, is forbidden
whenever the environment imports certificates, and otherwise goes through
the same version and hosted-zone validation as HTTP aliases. Branches and
messages pinned by TestWorkloadDeployer_DeployWorkload. -/
def validateNLBRuntime (app : Application) (env : Environment)
    (nlbAliases : List (List String))
    (versionResult : Except String String) : Option String :=
  if nlbAliases.isEmpty then none
  else
    let hasImportedCerts := !env.importCertARNs.isEmpty
    if app.domain.isEmpty && !hasImportedCerts then
      some "cannot specify nlb.alias when application is not associated with a domain"
    else if hasImportedCerts then
      some ("cannot specify nlb.alias when env " ++ env.name ++
        " imports one or more certificates")
    else
      validateLBSvcAliasAndAppVersion nlbAliases app.name env.name app.domain versionResult

/-- Outcomes of the collaborator calls made while building the
load-balanced stack configuration, supplied as data (the tests drive them
through mocks). -/
structure LBCollaborators where
  serviceDiscoveryEndpoint : Except String String
  certAliasResult : Option String
  publicCIDRBlocks : Except String (List String)
  versionResult : Except String String

/-- Modelled from the spec: the validation sequence of the load-balanced
stack configuration builder (section 4.4); the implementation is not under
src. Order pinned by TestWorkloadDeployer_DeployWorkload: service-discovery
endpoint, HTTP-alias validation, NLB-alias validation, then the public CIDR
lookup when an NLB port is declared. Returns the first error, none on a
successfully assembled configuration. -/
def lbStackConfiguration (name : String) (app : Application) (env : Environment)
    (httpAliases nlbAliases : List (List String)) (nlbPortSet : Bool)
    (c : LBCollaborators) : Option String :=
  match c.serviceDiscoveryEndpoint with
  | .error e => some ("get service discovery endpoint: " ++ e)
  | .ok _ =>
    match validateALBRuntime name app env httpAliases c.certAliasResult c.versionResult with
    | some e => some e
    | none =>
      match validateNLBRuntime app env nlbAliases c.versionResult with
      | some e => some e
      | none =>
        if nlbPortSet then
          match c.publicCIDRBlocks with
          | .error e =>
              some ("get public CIDR blocks information from the VPC of environment " ++
                env.name ++ ": " ++ e)
          | .ok _ => none
        else none

/-- Result of submitting the rendered stack to the provisioning backend:
success, the recoverable empty-change-set signal, or any other error. -/
inductive DeployServiceResult
  | ok
  | changeSetEmpty (msg : String)
  | err (msg : String)
  deriving DecidableEq

/-- Result of a ForceUpdateService call: success, the bounded stability
wait exceeding its retry budget, or any other error. -/
inductive ForceUpdateResult
  | ok
  | waitServiceStableTimeout (maxRetries : Nat)
  | err (msg : String)
  deriving DecidableEq

/-- The message carried by a force-update failure; the timeout renders as
(max retries N exceeded), pinned by TestWorkloadDeployer_DeployWorkload. -/
def forceUpdateErrMsg : ForceUpdateResult → String
  | .ok => ""
  | .waitServiceStableTimeout n => "max retries " ++ toString n ++ " exceeded"
  | .err m => m

/-- Modelled from the spec: progress message shown when a force update
starts; the exact constant is not under src, only its argument order is
pinned by the test. -/
def fmtForceUpdateSvcStart (name envName : String) : String :=
  "Forcing an update for service " ++ name ++ " from environment " ++ envName

/-- Modelled from the spec: progress message shown when a force update
fails; the exact constant is not under src, only its argument order is
pinned by the test. -/
def fmtForceUpdateSvcFailed (name envName errMsg : String) : String :=
  "Failed to force an update for service " ++ name ++ " from environment " ++
    envName ++ ": " ++ errMsg ++ "."

/-- Modelled from the spec: progress message shown when a force update
completes. -/
def fmtForceUpdateSvcComplete (name envName : String) : String :=
  "Forced an update for service " ++ name ++ " from environment " ++ envName ++ "."

/-- The out-of-band remediation guidance appended to the failure message on
a stability-wait timeout, pinned by the test case named (error if fail to
force an update because of timeout). -/
def svcStatusGuidance (name envName : String) : String :=
  "  Run copilot svc status --name " ++ name ++ " --env " ++ envName ++
    " to check for the fail reason.\n"

/-- Outcome of one force-update attempt: the returned error (none on
success) and the message reported to the spinner when it stops. -/
structure ForceDeployOutcome where
  err : Option String
  stopLog : String
  deriving DecidableEq

/-- Modelled from the spec: the force-update step (section 4.5); the
implementation is not under src. A stability-wait timeout is reported with
the out-of-band status guidance appended to the failure message; any other
error is reported without it; both return the wrapped force-update error.
Branches and messages pinned by TestWorkloadDeployer_DeployWorkload. -/
def forceDeploy (name envName : String) (r : ForceUpdateResult) : ForceDeployOutcome :=
  match r with
  | .ok => { err := none, stopLog := fmtForceUpdateSvcComplete name envName }
  | .waitServiceStableTimeout n =>
      { err := some ("force an update for service " ++ name ++ ": " ++
          forceUpdateErrMsg (.waitServiceStableTimeout n))
        stopLog := fmtForceUpdateSvcFailed name envName
            (forceUpdateErrMsg (.waitServiceStableTimeout n)) ++
          svcStatusGuidance name envName }
  | .err m =>
      { err := some ("force an update for service " ++ name ++ ": " ++ m)
        stopLog := fmtForceUpdateSvcFailed name envName m }

/-- Observable outcome of one deploy invocation: the returned error (none
on success), how many ForceUpdateService calls were made, and the spinner
stop message of the force-update step when it ran. -/
structure SvcDeployOutcome where
  err : Option String
  forceUpdateCalls : Nat
  stopLog : Option String
  deriving DecidableEq

/-- Modelled from the spec: the staleness check and force-update phase
(section 4.5); the implementation is not under src. The last-updated
timestamp is compared against the invocation start time captured from the
injected clock; the force update runs only when the workload was last
updated strictly before the invocation started. Pinned by the test cases
(skip force updating when cmd run time is after the last update time) and
(success with force update). -/
def svcForceUpdatePhase (name envName : String) (now : Int)
    (lastUpdatedAt : Except String Int)
    (forceUpdateResult : ForceUpdateResult) : SvcDeployOutcome :=
  match lastUpdatedAt with
  | .error e =>
      { err := some ("get the last updated deployment time for " ++ name ++ ": " ++ e)
        forceUpdateCalls := 0
        stopLog := none }
  | .ok t =>
      if t < now then
        let fd := forceDeploy name envName forceUpdateResult
        { err := fd.err, forceUpdateCalls := 1, stopLog := some fd.stopLog }
      else
        { err := none, forceUpdateCalls := 0, stopLog := none }

/-- Modelled from the spec: the deploy state machine of the stack deployer
(section 4.5); the implementation is not under src. Any submission error
other than the empty change set is fatal; an empty change set without the
force flag is an error (pinned by the test case named (error if change set
is empty but force flag is not set)); with the force flag the staleness
check and force-update phase run. -/
def svcDeployerDeploy (name envName : String) (forceNewUpdate : Bool) (now : Int)
    (deployResult : DeployServiceResult) (lastUpdatedAt : Except String Int)
    (forceUpdateResult : ForceUpdateResult) : SvcDeployOutcome :=
  match deployResult with
  | .err m =>
      { err := some ("deploy service: " ++ m), forceUpdateCalls := 0, stopLog := none }
  | .changeSetEmpty m =>
      if forceNewUpdate then
        svcForceUpdatePhase name envName now lastUpdatedAt forceUpdateResult
      else
        { err := some ("deploy service: " ++ m), forceUpdateCalls := 0, stopLog := none }
  | .ok =>
      if forceNewUpdate then
        svcForceUpdatePhase name envName now lastUpdatedAt forceUpdateResult
      else
        { err := none, forceUpdateCalls := 0, stopLog := none }

/-- Modelled from the spec: DeployWorkload for a load-balanced web service
(sections 4.4 and 4.5); the implementation is not under src. Builds the
stack configuration (all validations) and, on success, runs the deploy
state machine. -/
def lbDeployWorkload (name : String) (app : Application) (env : Environment)
    (httpAliases nlbAliases : List (List String)) (nlbPortSet : Bool)
    (c : LBCollaborators) (forceNewUpdate : Bool) (now : Int)
    (deployResult : DeployServiceResult) (lastUpdatedAt : Except String Int)
    (forceUpdateResult : ForceUpdateResult) : SvcDeployOutcome :=
  match lbStackConfiguration name app env httpAliases nlbAliases nlbPortSet c with
  | some e => { err := some e, forceUpdateCalls := 0, stopLog := none }
  | none =>
      svcDeployerDeploy name env.name forceNewUpdate now deployResult
        lastUpdatedAt forceUpdateResult

/-- Modelled from the spec: the stack configuration builder for
request-driven web services (section 4.4); the implementation is not under
src. Resolves the endpoint, rejects a non-empty alias when the application
has no domain, gates on the application version, classifies the alias, and
uploads the custom resources; returns the validated alias on success.
Branches and messages pinned by
TestSvcDeployOpts_rdWebServiceStackConfiguration. -/
def rdwsStackConfiguration (app : Application) (env : Environment)
    (aliasValue : Option (List String)) (endpoint : Except String String)
    (versionResult : Except String String)
    (uploadResult : Except String (List (String × String)))
    (bucket : String) : Except String String :=
  match endpoint with
  | .error e => .error ("get service discovery endpoint: " ++ e)
  | .ok _ =>
    match aliasValue with
    | none => .ok ""
    | some a =>
      if app.domain.isEmpty then
        .error "alias specified when application is not associated with a domain"
      else
        match validateAppVersion app.name versionResult with
        | some e => .error e
        | none =>
          match validateRDSvcAlias a app.name env.name app.domain with
          | some e => .error e
          | none =>
            match uploadResult with
            | .error e =>
                .error ("upload custom resources to bucket " ++ bucket ++ ": " ++ e)
            | .ok _ => .ok (renderHostname a)

/-- A declared topic subscription (manifest.TopicSubscription): the topic
name and the publishing service. -/
structure TopicSubscription where
  name : String
  service : String
  deriving DecidableEq

/-- Modelled from the spec: extraction of the resource suffix from a
provider ARN (section 9, a small parser returning the resource or nothing);
the implementation is not under src. An ARN has at least six colon-separated
sections starting with (arn); the resource is everything after the fifth
colon. -/
def parseARNResource (s : String) : Option String :=
  let parts := (splitOnChar ':' s.data).map fun cs => String.mk cs
  if 6 ≤ parts.length ∧ parts.head? = some "arn" then
    some (String.intercalate ":" (parts.drop 5))
  else none

/-- The expected topic resource name app-env-service-topic (section 4.2). -/
def topicResourceName (app env : String) (t : TopicSubscription) : String :=
  app ++ "-" ++ env ++ "-" ++ t.service ++ "-" ++ t.name

/-- Modelled from the spec: validateTopicsExist (section 4.2); the
implementation is not under src. Each subscription must have its expected
resource name among the resources of the deployed topic ARNs; the first
miss short-circuits with the error pinned by Test_validateTopicsExist. -/
def validateTopicsExist (subscriptions : List TopicSubscription)
    (topicARNs : List String) (app env : String) : Option String :=
  let validTopicResources := topicARNs.filterMap parseARNResource
  subscriptions.findSome? fun topic =>
    let topicName := topicResourceName app env topic
    if topicName ∈ validTopicResources then none
    else some ("SNS topic " ++ topicName ++ " does not exist in environment " ++ env)

end CopilotDeploy

namespace CopilotEnvTemplate

/-- Imported VPC resources (template.ImportVPC in env.go). -/
structure ImportVPC where
  id : String
  publicSubnetIDs : List String
  privateSubnetIDs : List String
  deriving DecidableEq

/-- Managed VPC configuration (template.ManagedVPC in env.go). -/
structure ManagedVPC where
  cidr : String
  azs : List String
  publicSubnetCIDRs : List String
  privateSubnetCIDRs : List String
  deriving DecidableEq

/-- VPC configuration (template.VPCConfig in env.go): the imported VPC is
used when present, the managed one otherwise. -/
structure VPCConfig where
  imported : Option ImportVPC
  managed : ManagedVPC
  deriving DecidableEq

/-- Observability toggle (template.Telemetry in env.go). -/
structure Telemetry where
  enableContainerInsights : Bool
  deriving DecidableEq

/-- The data driving the environment stack template (template.EnvOpts in
env.go, restricted to the fields the resource section of
src/unnamed/part_000 reads). -/
structure EnvOpts where
  vpcConfig : VPCConfig
  importCertARNs : List String
  telemetry : Option Telemetry
  deriving DecidableEq

/-- A top-level entry of the Resources section of the environment template
src/unnamed/part_000: a named resource, or the inclusion of a sub-template. -/
inductive EnvResource
  | serviceDiscoveryNamespace
  | cluster
  | publicLoadBalancerSecurityGroup
  | environmentSecurityGroup
  | environmentSecurityGroupIngressFromPublicALB
  | environmentSecurityGroupIngressFromSelf
  | publicLoadBalancer
  | defaultHTTPTargetGroup
  | httpListener
  | httpsListener
  | httpsImportCertificate (idx : Nat) (arn : String)
  | fileSystem
  | efsSecurityGroup
  | efsSecurityGroupIngressFromEnvironment
  | mountTarget (idx : Nat)
  | environmentHostedZone
  | includeTpl (name : String)
  deriving DecidableEq

/-- The MountTargetN resources emitted by the range over private subnets in
src/unnamed/part_000 (one per subnet, numbered from the index plus one). -/
def envMountTargetEntries : Nat → List String → List EnvResource
  | _, [] => []
  | ind, _ :: rest => .mountTarget (ind + 1) :: envMountTargetEntries (ind + 1) rest

/-- The HTTPSImportCertificateN listener-certificate resources emitted by
the range over ImportCertARNs in src/unnamed/part_000: one per ARN with
index greater than zero, numbered from the index plus one. -/
def envImportCertEntries : Nat → List String → List EnvResource
  | _, [] => []
  | ind, arn :: rest =>
      (if 0 < ind then [EnvResource.httpsImportCertificate (ind + 1) arn] else []) ++
        envImportCertEntries (ind + 1) rest

/-- The Resources section of the environment template src/unnamed/part_000,
in template order, with the Go-template conditionals and ranges applied:
VPC sub-templates only for a managed VPC; the additional listener
certificates from the imported ARNs; mount targets per private subnet; and
the custom-resources role, EnvironmentHostedZone, lambdas and custom
resources only when no certificate ARNs are imported. -/
def envTemplateResources (o : EnvOpts) : List EnvResource :=
  (match o.vpcConfig.imported with
   | some _ => []
   | none => [.includeTpl "vpc-resources", .includeTpl "nat-gateways"]) ++
  [.serviceDiscoveryNamespace, .cluster, .publicLoadBalancerSecurityGroup,
   .environmentSecurityGroup, .environmentSecurityGroupIngressFromPublicALB,
   .environmentSecurityGroupIngressFromSelf, .publicLoadBalancer,
   .defaultHTTPTargetGroup, .httpListener, .httpsListener] ++
  envImportCertEntries 0 o.importCertARNs ++
  [.fileSystem, .efsSecurityGroup, .efsSecurityGroupIngressFromEnvironment] ++
  (match o.vpcConfig.imported with
   | some v => envMountTargetEntries 0 v.privateSubnetIDs
   | none => envMountTargetEntries 0 o.vpcConfig.managed.privateSubnetCIDRs) ++
  [.includeTpl "cfn-execution-role", .includeTpl "environment-manager-role"] ++
  (if o.importCertARNs.isEmpty then
    [.includeTpl "custom-resources-role", .environmentHostedZone,
     .includeTpl "lambdas", .includeTpl "custom-resources"]
   else [])

/-- A certificate reference on the HTTPS listener: a literal imported ARN
or the Ref to the Copilot-managed HTTPSCert. -/
inductive HTTPSListenerCert
  | importedARN (arn : String)
  | managedHTTPSCertRef
  deriving DecidableEq

/-- The Certificates property of the HTTPSListener resource in
src/unnamed/part_000: the first imported ARN when certificates are
imported, the managed HTTPSCert reference otherwise. -/
def httpsListenerCertificates (o : EnvOpts) : List HTTPSListenerCert :=
  match o.importCertARNs with
  | [] => [.managedHTTPSCertRef]
  | arn :: _ => [.importedARN arn]

/-- The ARN attached by an additional listener-certificate resource, none
for every other template entry. -/
def certArnOf : EnvResource → Option String
  | .httpsImportCertificate _ arn => some arn
  | _ => none

end CopilotEnvTemplate

namespace CopilotDescribe

/-- The unique identifier to access a web service
(describe.LBWebServiceURI). -/
structure LBWebServiceURI where
  dnsName : String
  path : String
  deriving DecidableEq

/-- The String method of LBWebServiceURI: https with the bare DNS name for
an empty path, http with the bare DNS name for the root path, and http with
DNS name, slash and path otherwise. -/
def LBWebServiceURI.toString (uri : LBWebServiceURI) : String :=
  if uri.path = "" then "https://" ++ uri.dnsName
  else if uri.path = "/" then "http://" ++ uri.dnsName
  else "http://" ++ uri.dnsName ++ "/" ++ uri.path

end CopilotDescribe

namespace CopilotDeploy

theorem ne_cons_self {α : Type} (a : α) (l : List α) : l ≠ a :: l :=
  fun h => List.cons_ne_self a l h.symm

theorem cons_cons_ne_self {α : Type} (a b : α) (l : List α) : a :: b :: l ≠ l := by
  intro h
  have hlen := congrArg List.length h
  simp only [List.length_cons] at hlen
  omega

theorem findSome?_append_of_none {α β : Type} (f : α → Option β) (l₁ l₂ : List α)
    (h : ∀ x ∈ l₁, f x = none) :
    (l₁ ++ l₂).findSome? f = l₂.findSome? f := by
  induction l₁ with
  | nil => rfl
  | cons a l ih =>
    have ha := h a (List.mem_cons_self a l)
    simp only [List.cons_append, List.findSome?_cons, ha]
    exact ih fun x hx => h x (List.mem_cons_of_mem a hx)

theorem validateTopicsExist_covered (subs : List TopicSubscription)
    (topicARNs : List String) (app env : String)
    (h : ∀ t ∈ subs, topicResourceName app env t ∈ topicARNs.filterMap parseARNResource) :
    validateTopicsExist subs topicARNs app env = none := by
  induction subs with
  | nil => rfl
  | cons a l ih =>
    have ha := h a (List.mem_cons_self a l)
    have htl := ih fun t ht => h t (List.mem_cons_of_mem a ht)
    simp only [validateTopicsExist, List.findSome?_cons, if_pos ha]
    simpa [validateTopicsExist] using htl

end CopilotDeploy

namespace CopilotDescribe

theorem http_append_ne_https_append (x y : String) :
    ("http://" ++ x) ≠ ("https://" ++ y) := by
  intro h
  have hd : ("http://" ++ x).data = ("https://" ++ y).data := by rw [h]
  rw [String.data_append, String.data_append] at hd
  have h1 : ("http://" : String).data = ['h', 't', 't', 'p', ':', '/', '/'] := rfl
  have h2 : ("https://" : String).data = ['h', 't', 't', 'p', 's', ':', '/', '/'] := rfl
  rw [h1, h2] at hd
  simp at hd

end CopilotDescribe

/-- Claim C10: for every LBWebServiceURI value, toString returns https
followed by the DNS name when the path is empty, http followed by the DNS
name when the path is the root slash, and http with DNS name, slash and
path otherwise, so the https scheme is produced exactly when the path is
empty. -/
theorem lbWebServiceURI_scheme (uri : CopilotDescribe.LBWebServiceURI) :
    (uri.path = "" → uri.toString = "https://" ++ uri.dnsName)
    ∧ (uri.path = "/" → uri.toString = "http://" ++ uri.dnsName)
    ∧ (uri.path ≠ "" → uri.path ≠ "/" →
        uri.toString = "http://" ++ uri.dnsName ++ "/" ++ uri.path)
    ∧ ((∃ s, uri.toString = "https://" ++ s) ↔ uri.path = "") := by
  refine ⟨?_, ?_, ?_, ?_⟩
  · intro h; simp [CopilotDescribe.LBWebServiceURI.toString, h]
  · intro h; simp [CopilotDescribe.LBWebServiceURI.toString, h]
  · intro h1 h2; simp [CopilotDescribe.LBWebServiceURI.toString, h1, h2]
  · constructor
    · rintro ⟨s, hs⟩
      by_contra hne
      by_cases hr : uri.path = "/"
      · rw [show uri.toString = "http://" ++ uri.dnsName by
            simp [CopilotDescribe.LBWebServiceURI.toString, hne, hr]] at hs
        exact CopilotDescribe.http_append_ne_https_append uri.dnsName s hs
      · rw [show uri.toString = "http://" ++ uri.dnsName ++ "/" ++ uri.path by
            simp [CopilotDescribe.LBWebServiceURI.toString, hne, hr]] at hs
        rw [String.append_assoc, String.append_assoc] at hs
        exact CopilotDescribe.http_append_ne_https_append _ s hs
    · intro h
      exact ⟨uri.dnsName, by simp [CopilotDescribe.LBWebServiceURI.toString, h]⟩

theorem lbWebServiceURI_scheme_witness :
    (CopilotDescribe.LBWebServiceURI.mk "lb.us-west-2.amazon.com" "svc").path ≠ "" ∧
    (CopilotDescribe.LBWebServiceURI.mk "lb.us-west-2.amazon.com" "svc").toString =
      "http://" ++ "lb.us-west-2.amazon.com" ++ "/" ++ "svc" :=
  ⟨by decide,
    (lbWebServiceURI_scheme (CopilotDescribe.LBWebServiceURI.mk
      "lb.us-west-2.amazon.com" "svc")).2.2.1 (by decide) (by decide)⟩

/-- Claim C7: validateTopicsExist returns none for an empty subscription
list regardless of the deployed topic set; for a list containing a
subscription whose expected resource name app-env-service-topic matches no
deployed ARN it returns an error naming exactly the first missing topic in
input order without aggregating later failures; for a list fully covered by
the deployed ARN set it returns none. -/
theorem validateTopicsExist_firstMissing :
    (∀ (topicARNs : List String) (app env : String),
      CopilotDeploy.validateTopicsExist [] topicARNs app env = none)
    ∧ (∀ (subs : List CopilotDeploy.TopicSubscription) (topicARNs : List String)
        (app env : String),
      (∀ t ∈ subs, CopilotDeploy.topicResourceName app env t ∈
          topicARNs.filterMap CopilotDeploy.parseARNResource) →
      CopilotDeploy.validateTopicsExist subs topicARNs app env = none)
    ∧ (∀ (pre post : List CopilotDeploy.TopicSubscription)
        (t : CopilotDeploy.TopicSubscription) (topicARNs : List String)
        (app env : String),
      (∀ u ∈ pre, CopilotDeploy.topicResourceName app env u ∈
          topicARNs.filterMap CopilotDeploy.parseARNResource) →
      CopilotDeploy.topicResourceName app env t ∉
          topicARNs.filterMap CopilotDeploy.parseARNResource →
      CopilotDeploy.validateTopicsExist (pre ++ t :: post) topicARNs app env =
        some ("SNS topic " ++ CopilotDeploy.topicResourceName app env t ++
          " does not exist in environment " ++ env)) := by
  refine ⟨fun _ _ _ => rfl, CopilotDeploy.validateTopicsExist_covered, ?_⟩
  intro pre post t topicARNs app env hpre ht
  simp only [CopilotDeploy.validateTopicsExist]
  rw [CopilotDeploy.findSome?_append_of_none _ pre _ (fun u hu => by
    simp only [if_pos (hpre u hu)])]
  simp only [List.findSome?_cons, if_neg ht]

theorem validateTopicsExist_firstMissing_witness :
    CopilotDeploy.topicResourceName "app" "env"
        (CopilotDeploy.TopicSubscription.mk "events" "database") ∉
      ([] : List String).filterMap CopilotDeploy.parseARNResource ∧
    CopilotDeploy.validateTopicsExist
        [CopilotDeploy.TopicSubscription.mk "events" "database",
         CopilotDeploy.TopicSubscription.mk "orders" "database"] [] "app" "env" =
      some "SNS topic app-env-database-events does not exist in environment env" :=
  ⟨by decide,
    by
      have h := validateTopicsExist_firstMissing.2.2 []
        [CopilotDeploy.TopicSubscription.mk "orders" "database"]
        (CopilotDeploy.TopicSubscription.mk "events" "database") [] "app" "env"
        (by simp) (by decide)
      simpa using h⟩

/-- Claim C4 counterexample: an alias of the literal shape
envName.appDomain (labels mockEnv.mockDomain with appDomain mockDomain and
environment mockEnv) validates successfully as a service-level alias
instead of failing as an environment-level alias; the environment-level
rejection applies to envName.appName.appDomain. -/
theorem rdws_envName_appDomain_cex :
    CopilotDeploy.validateRDSvcAlias ["mockEnv", "mockDomain"] "mockApp" "mockEnv"
      ["mockDomain"] = none ∧
    CopilotDeploy.validateRDSvcAlias ["mockEnv", "mockDomain"] "mockApp" "mockEnv"
        ["mockDomain"] ≠
      some "mockEnv.mockDomain is an environment-level alias, which is not supported yet" := by
  decide

/-- Claim C4 (amended): alias classification is relative to the application
name as well as the application domain: a single extra label other than the
application name in front of the domain validates successfully; an alias
label.appName.appDomain with label different from the environment name
fails as an application-level alias; envName.appName.appDomain fails as an
environment-level alias; an alias equal to appDomain fails as a root-domain
alias. -/
theorem rdws_alias_classification :
    (∀ (l appName envName : String) (domain : List String),
      CopilotDeploy.validateRDSvcAlias (l :: domain) appName envName domain = none)
    ∧ (∀ (l appName envName : String) (domain : List String), l ≠ envName →
      CopilotDeploy.validateRDSvcAlias (l :: appName :: domain) appName envName domain =
        some (CopilotDeploy.renderHostname (l :: appName :: domain) ++
          " is an application-level alias, which is not supported yet"))
    ∧ (∀ (appName envName : String) (domain : List String),
      CopilotDeploy.validateRDSvcAlias (envName :: appName :: domain) appName envName domain =
        some (CopilotDeploy.renderHostname (envName :: appName :: domain) ++
          " is an environment-level alias, which is not supported yet"))
    ∧ (∀ (appName envName : String) (domain : List String),
      CopilotDeploy.validateRDSvcAlias domain appName envName domain =
        some (CopilotDeploy.renderHostname domain ++
          " is a root domain alias, which is not supported yet")) := by
  refine ⟨?_, ?_, ?_, ?_⟩
  · intro l appName envName domain
    have h1 : l :: domain ≠ domain := List.cons_ne_self l domain
    have h2 : domain ≠ appName :: domain := CopilotDeploy.ne_cons_self appName domain
    simp [CopilotDeploy.validateRDSvcAlias, CopilotDeploy.classifyAlias, h1, h2]
  · intro l appName envName domain hl
    have h1 : l :: appName :: domain ≠ domain := CopilotDeploy.cons_cons_ne_self l appName domain
    simp [CopilotDeploy.validateRDSvcAlias, CopilotDeploy.classifyAlias, h1, hl]
  · intro appName envName domain
    have h1 : envName :: appName :: domain ≠ domain :=
      CopilotDeploy.cons_cons_ne_self envName appName domain
    simp [CopilotDeploy.validateRDSvcAlias, CopilotDeploy.classifyAlias, h1]
  · intro appName envName domain
    simp [CopilotDeploy.validateRDSvcAlias, CopilotDeploy.classifyAlias]

theorem rdws_alias_classification_witness :
    ("someSub" : String) ≠ "mockEnv" ∧
    CopilotDeploy.validateRDSvcAlias ["someSub", "mockApp", "mockDomain"] "mockApp" "mockEnv"
        ["mockDomain"] =
      some (CopilotDeploy.renderHostname ["someSub", "mockApp", "mockDomain"] ++
        " is an application-level alias, which is not supported yet") :=
  ⟨by decide,
    rdws_alias_classification.2.1 "someSub" "mockApp" "mockEnv" ["mockDomain"] (by decide)⟩

namespace CopilotEnvTemplate

theorem envMountTargetEntries_no_hostedZone (l : List String) :
    ∀ ind, EnvResource.environmentHostedZone ∉ envMountTargetEntries ind l := by
  induction l with
  | nil => intro ind; simp [envMountTargetEntries]
  | cons a rest ih =>
    intro ind
    simp only [envMountTargetEntries, List.mem_cons]
    rintro (h | h)
    · exact absurd h (by simp)
    · exact ih (ind + 1) h

theorem envMountTargetEntries_certArn (l : List String) :
    ∀ ind, (envMountTargetEntries ind l).filterMap certArnOf = [] := by
  induction l with
  | nil => intro ind; simp [envMountTargetEntries]
  | cons a rest ih =>
    intro ind
    simp only [envMountTargetEntries, List.filterMap_cons]
    simpa [certArnOf] using ih (ind + 1)

theorem envImportCertEntries_no_hostedZone (l : List String) :
    ∀ ind, EnvResource.environmentHostedZone ∉ envImportCertEntries ind l := by
  induction l with
  | nil => intro ind; simp [envImportCertEntries]
  | cons a rest ih =>
    intro ind
    simp only [envImportCertEntries, List.mem_append]
    rintro (h | h)
    · rcases Nat.eq_zero_or_pos ind with hz | hp
      · simp [hz] at h
      · simp [hp] at h
    · exact ih (ind + 1) h

theorem envImportCertEntries_certArn_pos (l : List String) :
    ∀ ind, 0 < ind → (envImportCertEntries ind l).filterMap certArnOf = l := by
  induction l with
  | nil => intro ind _; simp [envImportCertEntries]
  | cons a rest ih =>
    intro ind hp
    simp only [envImportCertEntries, List.filterMap_append, if_pos hp]
    simp [certArnOf, ih (ind + 1) (Nat.succ_pos ind)]

theorem envImportCertEntries_certArn_zero (l : List String) :
    (envImportCertEntries 0 l).filterMap certArnOf = l.drop 1 := by
  cases l with
  | nil => simp [envImportCertEntries]
  | cons a rest =>
    simp only [envImportCertEntries, List.filterMap_append]
    simp [envImportCertEntries_certArn_pos rest 1 Nat.one_pos]

end CopilotEnvTemplate

/-- Claim C9: for every environment configuration with a non-empty list of
imported certificate ARNs, the rendered environment stack template contains
no managed EnvironmentHostedZone resource, its HTTPS listener references
the first imported certificate ARN instead of the Copilot-managed
certificate, and the remaining imported ARNs are attached as additional
listener-certificate resources. -/
theorem importCerts_env_template (o : CopilotEnvTemplate.EnvOpts) (a : String)
    (rest : List String) (h : o.importCertARNs = a :: rest) :
    CopilotEnvTemplate.EnvResource.environmentHostedZone ∉
      CopilotEnvTemplate.envTemplateResources o
    ∧ CopilotEnvTemplate.httpsListenerCertificates o =
      [CopilotEnvTemplate.HTTPSListenerCert.importedARN a]
    ∧ (CopilotEnvTemplate.envTemplateResources o).filterMap
        CopilotEnvTemplate.certArnOf = rest := by
  refine ⟨?_, ?_, ?_⟩
  · cases himp : o.vpcConfig.imported <;>
      simp [CopilotEnvTemplate.envTemplateResources, h, himp,
        CopilotEnvTemplate.envImportCertEntries_no_hostedZone,
        CopilotEnvTemplate.envMountTargetEntries_no_hostedZone]
  · simp [CopilotEnvTemplate.httpsListenerCertificates, h]
  · cases himp : o.vpcConfig.imported <;>
      simp [CopilotEnvTemplate.envTemplateResources, h, himp,
        List.filterMap_append, CopilotEnvTemplate.certArnOf,
        CopilotEnvTemplate.envImportCertEntries_certArn_zero,
        CopilotEnvTemplate.envMountTargetEntries_certArn]

theorem importCerts_env_template_witness :
    (CopilotEnvTemplate.EnvOpts.mk
        (CopilotEnvTemplate.VPCConfig.mk none
          (CopilotEnvTemplate.ManagedVPC.mk "10.0.0.0/16" ["us-west-2a"]
            ["10.0.0.0/24"] ["10.0.2.0/24"]))
        ["mockCertARN1", "mockCertARN2"] none).importCertARNs =
      "mockCertARN1" :: ["mockCertARN2"] ∧
    CopilotEnvTemplate.EnvResource.environmentHostedZone ∉
      CopilotEnvTemplate.envTemplateResources
        (CopilotEnvTemplate.EnvOpts.mk
          (CopilotEnvTemplate.VPCConfig.mk none
            (CopilotEnvTemplate.ManagedVPC.mk "10.0.0.0/16" ["us-west-2a"]
              ["10.0.0.0/24"] ["10.0.2.0/24"]))
          ["mockCertARN1", "mockCertARN2"] none) ∧
    CopilotEnvTemplate.httpsListenerCertificates
        (CopilotEnvTemplate.EnvOpts.mk
          (CopilotEnvTemplate.VPCConfig.mk none
            (CopilotEnvTemplate.ManagedVPC.mk "10.0.0.0/16" ["us-west-2a"]
              ["10.0.0.0/24"] ["10.0.2.0/24"]))
          ["mockCertARN1", "mockCertARN2"] none) =
      [CopilotEnvTemplate.HTTPSListenerCert.importedARN "mockCertARN1"] :=
  ⟨rfl,
    (importCerts_env_template _ "mockCertARN1" ["mockCertARN2"] rfl).1,
    (importCerts_env_template _ "mockCertARN1" ["mockCertARN2"] rfl).2.1⟩

/-- Claim C1 counterexample: at the inputs of the test case named (error if
change set is empty but force flag is not set), an empty change set without
the force-update option makes DeployWorkload return the wrapped
change-set-empty error rather than success. -/
theorem changeSetEmpty_noForce_cex :
    (CopilotDeploy.lbDeployWorkload "mockWkld" ⟨"mockApp", []⟩ ⟨"mockEnv", []⟩ [] [] false
        ⟨.ok "mockApp.local", none, .ok [], .ok "v1.0.0"⟩ false 1494505750
        (.changeSetEmpty "change set with name mockChangeSet for stack mockStack has no changes")
        (.ok 0) .ok).err =
      some "deploy service: change set with name mockChangeSet for stack mockStack has no changes"
    ∧ (CopilotDeploy.lbDeployWorkload "mockWkld" ⟨"mockApp", []⟩ ⟨"mockEnv", []⟩ [] [] false
        ⟨.ok "mockApp.local", none, .ok [], .ok "v1.0.0"⟩ false 1494505750
        (.changeSetEmpty "change set with name mockChangeSet for stack mockStack has no changes")
        (.ok 0) .ok).err ≠ none := by
  decide

/-- Claim C1 (amended): when the provisioning backend reports that the
change set is empty and the force-update option is not requested,
DeployWorkload returns the wrapped change-set-empty error (a failed deploy
prompting the force option), not success, and makes no force-update call. -/
theorem changeSetEmpty_noForce_errors
    (name : String) (app : CopilotDeploy.Application) (env : CopilotDeploy.Environment)
    (httpAliases nlbAliases : List (List String)) (nlbPortSet : Bool)
    (c : CopilotDeploy.LBCollaborators) (now : Int) (m : String)
    (lastUpd : Except String Int) (forceRes : CopilotDeploy.ForceUpdateResult)
    (hvalid : CopilotDeploy.lbStackConfiguration name app env httpAliases nlbAliases
      nlbPortSet c = none) :
    CopilotDeploy.lbDeployWorkload name app env httpAliases nlbAliases nlbPortSet c
        false now (.changeSetEmpty m) lastUpd forceRes =
      { err := some ("deploy service: " ++ m), forceUpdateCalls := 0, stopLog := none } := by
  simp [CopilotDeploy.lbDeployWorkload, hvalid, CopilotDeploy.svcDeployerDeploy]

theorem changeSetEmpty_noForce_errors_witness :
    CopilotDeploy.lbStackConfiguration "mockWkld" ⟨"mockApp", []⟩ ⟨"mockEnv", []⟩ [] [] false
        ⟨.ok "mockApp.local", none, .ok [], .ok "v1.0.0"⟩ = none ∧
    CopilotDeploy.lbDeployWorkload "mockWkld" ⟨"mockApp", []⟩ ⟨"mockEnv", []⟩ [] [] false
        ⟨.ok "mockApp.local", none, .ok [], .ok "v1.0.0"⟩ false 1494505750
        (.changeSetEmpty "no changes") (.ok 0) .ok =
      { err := some ("deploy service: " ++ "no changes"), forceUpdateCalls := 0,
        stopLog := none } :=
  ⟨by decide,
    changeSetEmpty_noForce_errors "mockWkld" ⟨"mockApp", []⟩ ⟨"mockEnv", []⟩ [] [] false
      ⟨.ok "mockApp.local", none, .ok [], .ok "v1.0.0"⟩ 1494505750 "no changes"
      (.ok 0) .ok (by decide)⟩

/-- Claim C2: for every deploy invocation with force-update requested that
reaches the staleness check, if LastUpdatedAt returns a timestamp at or
after the recorded invocation start time then ForceUpdate is never called
and the deploy reports success, and if the timestamp is before the
invocation start time then ForceUpdate is called exactly once. -/
theorem forceUpdate_staleness
    (name : String) (app : CopilotDeploy.Application) (env : CopilotDeploy.Environment)
    (httpAliases nlbAliases : List (List String)) (nlbPortSet : Bool)
    (c : CopilotDeploy.LBCollaborators) (now t : Int)
    (deployResult : CopilotDeploy.DeployServiceResult)
    (lastUpd : Except String Int) (forceRes : CopilotDeploy.ForceUpdateResult)
    (hvalid : CopilotDeploy.lbStackConfiguration name app env httpAliases nlbAliases
      nlbPortSet c = none)
    (hdep : deployResult = .ok ∨
      ∃ m, deployResult = CopilotDeploy.DeployServiceResult.changeSetEmpty m)
    (hlast : lastUpd = .ok t) :
    (now ≤ t →
      (CopilotDeploy.lbDeployWorkload name app env httpAliases nlbAliases nlbPortSet c
          true now deployResult lastUpd forceRes).forceUpdateCalls = 0 ∧
      (CopilotDeploy.lbDeployWorkload name app env httpAliases nlbAliases nlbPortSet c
          true now deployResult lastUpd forceRes).err = none)
    ∧ (t < now →
      (CopilotDeploy.lbDeployWorkload name app env httpAliases nlbAliases nlbPortSet c
          true now deployResult lastUpd forceRes).forceUpdateCalls = 1) := by
  subst hlast
  constructor
  · intro hle
    have hnl : ¬ (t < now) := not_lt.mpr hle
    rcases hdep with h | ⟨m, h⟩ <;> subst h <;>
      simp [CopilotDeploy.lbDeployWorkload, hvalid, CopilotDeploy.svcDeployerDeploy,
        CopilotDeploy.svcForceUpdatePhase, hnl]
  · intro hlt
    rcases hdep with h | ⟨m, h⟩ <;> subst h <;>
      simp [CopilotDeploy.lbDeployWorkload, hvalid, CopilotDeploy.svcDeployerDeploy,
        CopilotDeploy.svcForceUpdatePhase, hlt]

theorem forceUpdate_staleness_witness :
    (CopilotDeploy.lbDeployWorkload "mockWkld" ⟨"mockApp", []⟩ ⟨"mockEnv", []⟩ [] [] false
        ⟨.ok "mockApp.local", none, .ok [], .ok "v1.0.0"⟩ true 1494505750 .ok
        (.ok 1494505756) .ok).forceUpdateCalls = 0 ∧
    (CopilotDeploy.lbDeployWorkload "mockWkld" ⟨"mockApp", []⟩ ⟨"mockEnv", []⟩ [] [] false
        ⟨.ok "mockApp.local", none, .ok [], .ok "v1.0.0"⟩ true 1494505750 .ok
        (.ok 1494505756) .ok).err = none := by
  have h := forceUpdate_staleness "mockWkld" ⟨"mockApp", []⟩ ⟨"mockEnv", []⟩ [] [] false
    ⟨.ok "mockApp.local", none, .ok [], .ok "v1.0.0"⟩ 1494505750 1494505756 .ok
    (.ok 1494505756) .ok (by decide) (Or.inl rfl) rfl
  exact h.1 (by decide)

/-- Claim C3 counterexample: a load-balanced workload with a non-empty
alias under an application with no domain deploys successfully when the
environment imports a certificate and the certificate validator accepts the
alias; the domain-association error is not raised, so the failure is not
independent of the certificate state. -/
theorem alias_noDomain_withCerts_cex :
    CopilotDeploy.lbDeployWorkload "mockWkld" ⟨"mockApp", []⟩ ⟨"mockEnv", ["mockCertARN"]⟩
        [["mockAlias"]] [] false ⟨.ok "mockApp.local", none, .ok [], .ok "v1.0.0"⟩
        false 0 .ok (.ok 0) .ok =
      { err := none, forceUpdateCalls := 0, stopLog := none } := by
  decide

/-- Claim C3 (amended): a non-empty alias under an application with no
domain fails with the domain-association error whenever the environment
imports no certificates; for request-driven services it fails
unconditionally. When a load-balanced environment imports certificates the
alias is validated against the certificates instead and no domain error is
raised. -/
theorem alias_noDomain_errors :
    (∀ (name appName envName ep : String) (car : Option String)
      (pcb : Except String (List String)) (vr : Except String String)
      (a : List String) (as nlbAliases : List (List String)) (nlbPortSet force : Bool)
      (now : Int) (dr : CopilotDeploy.DeployServiceResult) (lu : Except String Int)
      (fr : CopilotDeploy.ForceUpdateResult),
      (CopilotDeploy.lbDeployWorkload name ⟨appName, []⟩ ⟨envName, []⟩ (a :: as)
          nlbAliases nlbPortSet ⟨.ok ep, car, pcb, vr⟩ force now dr lu fr).err =
        some ("cannot specify http.alias when application is not associated with a domain and env " ++
          envName ++ " doesn\x27t import one or more certificates"))
    ∧ (∀ (appName : String) (env : CopilotDeploy.Environment) (aliasLabels : List String)
      (ep : String) (vr : Except String String)
      (upload : Except String (List (String × String))) (bucket : String),
      CopilotDeploy.rdwsStackConfiguration ⟨appName, []⟩ env (some aliasLabels)
          (.ok ep) vr upload bucket =
        .error "alias specified when application is not associated with a domain") := by
  constructor
  · intro name appName envName ep car pcb vr a as nlbAliases nlbPortSet force now dr lu fr
    simp [CopilotDeploy.lbDeployWorkload, CopilotDeploy.lbStackConfiguration,
      CopilotDeploy.validateALBRuntime]
  · intro appName env aliasLabels ep vr upload bucket
    simp [CopilotDeploy.rdwsStackConfiguration]

/-- Claim C5 counterexample: with imported certificates and an NLB alias
but no HTTP alias, the deploy fails with the missing-http-alias error, not
the NLB-alias rejection error, so the NLB rejection message is not returned
regardless of whether an HTTP alias is set. -/
theorem nlb_certs_noHttpAlias_cex :
    (CopilotDeploy.lbDeployWorkload "mockWkld" ⟨"mockApp", []⟩ ⟨"mockEnv", ["mockCertARN"]⟩
        [] [["mockAlias"]] true ⟨.ok "mockApp.local", none, .ok [], .ok "v1.0.0"⟩
        false 0 .ok (.ok 0) .ok).err =
      some "cannot deploy service mockWkld without http.alias to environment mockEnv with certificate imported"
    ∧ ("cannot deploy service mockWkld without http.alias to environment mockEnv with certificate imported" : String) ≠
      "cannot specify nlb.alias when env mockEnv imports one or more certificates" := by
  decide

/-- Claim C5 (amended): with a declared NLB alias and non-empty imported
certificate ARNs the deploy always fails; when an HTTP alias is also set
and passes certificate validation the failure is the NLB-alias rejection
error, regardless of the validity of the NLB alias itself; with no HTTP
alias (or a failing certificate validation) the earlier HTTP-alias error is
returned instead. -/
theorem nlb_alias_with_certs_rejected :
    (∀ (name appName envName ep cert : String) (domain : List String)
      (certs : List String) (pcb : Except String (List String))
      (vr : Except String String) (a b : List String) (as bs : List (List String))
      (nlbPortSet force : Bool) (now : Int) (dr : CopilotDeploy.DeployServiceResult)
      (lu : Except String Int) (fr : CopilotDeploy.ForceUpdateResult),
      (CopilotDeploy.lbDeployWorkload name ⟨appName, domain⟩ ⟨envName, cert :: certs⟩
          (a :: as) (b :: bs) nlbPortSet ⟨.ok ep, none, pcb, vr⟩ force now dr lu fr).err =
        some ("cannot specify nlb.alias when env " ++ envName ++
          " imports one or more certificates"))
    ∧ (∀ (name appName envName cert : String) (domain : List String)
      (certs : List String) (httpAliases : List (List String))
      (c : CopilotDeploy.LBCollaborators) (b : List String) (bs : List (List String))
      (nlbPortSet force : Bool) (now : Int) (dr : CopilotDeploy.DeployServiceResult)
      (lu : Except String Int) (fr : CopilotDeploy.ForceUpdateResult),
      (CopilotDeploy.lbDeployWorkload name ⟨appName, domain⟩ ⟨envName, cert :: certs⟩
          httpAliases (b :: bs) nlbPortSet c force now dr lu fr).err ≠ none) := by
  constructor
  · intro name appName envName ep cert domain certs pcb vr a b as bs nlbPortSet force
      now dr lu fr
    simp [CopilotDeploy.lbDeployWorkload, CopilotDeploy.lbStackConfiguration,
      CopilotDeploy.validateALBRuntime, CopilotDeploy.validateNLBRuntime]
  · intro name appName envName cert domain certs httpAliases c b bs nlbPortSet force
      now dr lu fr
    rcases c with ⟨sde, car, pcb, vr⟩
    rcases sde with e | ep
    · simp [CopilotDeploy.lbDeployWorkload, CopilotDeploy.lbStackConfiguration]
    · rcases httpAliases with _ | ⟨a, as⟩
      · simp [CopilotDeploy.lbDeployWorkload, CopilotDeploy.lbStackConfiguration,
          CopilotDeploy.validateALBRuntime]
      · rcases car with _ | ce
        · simp [CopilotDeploy.lbDeployWorkload, CopilotDeploy.lbStackConfiguration,
            CopilotDeploy.validateALBRuntime, CopilotDeploy.validateNLBRuntime]
        · simp [CopilotDeploy.lbDeployWorkload, CopilotDeploy.lbStackConfiguration,
            CopilotDeploy.validateALBRuntime]

/-- Claim C6: for every non-empty alias (HTTP or NLB) on an application
with an associated domain whose schema version predates the alias-support
threshold, and an environment without imported certificates, the deploy
fails with the incompatible-version error regardless of the alias shape,
because the version gate runs before any alias parsing. -/
theorem version_check_before_alias_shape
    (name appName envName ep v d : String) (ds : List String)
    (a b : List String) (as bs nlbAliases : List (List String))
    (car : Option String) (pcb : Except String (List String))
    (nlbPortSet force : Bool) (now : Int) (dr : CopilotDeploy.DeployServiceResult)
    (lu : Except String Int) (fr : CopilotDeploy.ForceUpdateResult)
    (hv : CopilotDeploy.semverLt v CopilotDeploy.aliasLeastAppTemplateVersion = true) :
    (CopilotDeploy.lbDeployWorkload name ⟨appName, d :: ds⟩ ⟨envName, []⟩ (a :: as)
        nlbAliases nlbPortSet ⟨.ok ep, car, pcb, .ok v⟩ force now dr lu fr).err =
      some ("alias is not compatible with application versions below " ++
        CopilotDeploy.aliasLeastAppTemplateVersion)
    ∧ (CopilotDeploy.lbDeployWorkload name ⟨appName, d :: ds⟩ ⟨envName, []⟩ []
        (b :: bs) nlbPortSet ⟨.ok ep, car, pcb, .ok v⟩ force now dr lu fr).err =
      some ("alias is not compatible with application versions below " ++
        CopilotDeploy.aliasLeastAppTemplateVersion) := by
  constructor
  · simp [CopilotDeploy.lbDeployWorkload, CopilotDeploy.lbStackConfiguration,
      CopilotDeploy.validateALBRuntime, CopilotDeploy.validateLBSvcAliasAndAppVersion,
      CopilotDeploy.validateAppVersion, hv]
  · simp [CopilotDeploy.lbDeployWorkload, CopilotDeploy.lbStackConfiguration,
      CopilotDeploy.validateALBRuntime, CopilotDeploy.validateNLBRuntime,
      CopilotDeploy.validateLBSvcAliasAndAppVersion,
      CopilotDeploy.validateAppVersion, hv]

theorem version_check_before_alias_shape_witness :
    CopilotDeploy.semverLt "v0.0.0" CopilotDeploy.aliasLeastAppTemplateVersion = true ∧
    (CopilotDeploy.lbDeployWorkload "mockWkld" ⟨"mockApp", ["mockDomain"]⟩ ⟨"mockEnv", []⟩
        [["mockAlias"]] [] false ⟨.ok "mockApp.local", none, .ok [], .ok "v0.0.0"⟩
        false 0 .ok (.ok 0) .ok).err =
      some ("alias is not compatible with application versions below " ++
        CopilotDeploy.aliasLeastAppTemplateVersion) :=
  ⟨by decide,
    (version_check_before_alias_shape "mockWkld" "mockApp" "mockEnv" "mockApp.local"
      "v0.0.0" "mockDomain" [] ["mockAlias"] [] [] [] [] none (.ok []) false false 0
      .ok (.ok 0) .ok (by decide)).1⟩

/-- Claim C8: when the post-force-update stability wait exceeds its retry
budget the deploy reports the wrapped timeout error and the reported
failure message carries the out-of-band status guidance, while any other
force-update error is reported as the generic force-update failure without
that guidance. -/
theorem forceUpdate_timeout_reporting
    (name : String) (app : CopilotDeploy.Application) (env : CopilotDeploy.Environment)
    (httpAliases nlbAliases : List (List String)) (nlbPortSet : Bool)
    (c : CopilotDeploy.LBCollaborators) (now t : Int) (csMsg m : String) (n : Nat)
    (hvalid : CopilotDeploy.lbStackConfiguration name app env httpAliases nlbAliases
      nlbPortSet c = none)
    (hstale : t < now) :
    ((CopilotDeploy.lbDeployWorkload name app env httpAliases nlbAliases nlbPortSet c
        true now (.changeSetEmpty csMsg) (.ok t) (.waitServiceStableTimeout n)).err =
      some ("force an update for service " ++ name ++ ": " ++
        ("max retries " ++ toString n ++ " exceeded")))
    ∧ ((CopilotDeploy.lbDeployWorkload name app env httpAliases nlbAliases nlbPortSet c
        true now (.changeSetEmpty csMsg) (.ok t) (.waitServiceStableTimeout n)).stopLog =
      some (CopilotDeploy.fmtForceUpdateSvcFailed name env.name
          ("max retries " ++ toString n ++ " exceeded") ++
        CopilotDeploy.svcStatusGuidance name env.name))
    ∧ ((CopilotDeploy.lbDeployWorkload name app env httpAliases nlbAliases nlbPortSet c
        true now (.changeSetEmpty csMsg) (.ok t) (.err m)).err =
      some ("force an update for service " ++ name ++ ": " ++ m))
    ∧ ((CopilotDeploy.lbDeployWorkload name app env httpAliases nlbAliases nlbPortSet c
        true now (.changeSetEmpty csMsg) (.ok t) (.err m)).stopLog =
      some (CopilotDeploy.fmtForceUpdateSvcFailed name env.name m)) := by
  refine ⟨?_, ?_, ?_, ?_⟩ <;>
    simp [CopilotDeploy.lbDeployWorkload, hvalid, CopilotDeploy.svcDeployerDeploy,
      CopilotDeploy.svcForceUpdatePhase, hstale, CopilotDeploy.forceDeploy,
      CopilotDeploy.forceUpdateErrMsg, String.append_assoc]

theorem forceUpdate_timeout_reporting_witness :
    ((1494505743 : Int) < 1494505750) ∧
    (CopilotDeploy.lbDeployWorkload "mockWkld" ⟨"mockApp", []⟩ ⟨"mockEnv", []⟩ [] [] false
        ⟨.ok "mockApp.local", none, .ok [], .ok "v1.0.0"⟩ true 1494505750
        (.changeSetEmpty "no changes") (.ok 1494505743)
        (.waitServiceStableTimeout 0)).err =
      some ("force an update for service " ++ "mockWkld" ++ ": " ++
        ("max retries " ++ toString 0 ++ " exceeded")) :=
  ⟨by decide,
    (forceUpdate_timeout_reporting "mockWkld" ⟨"mockApp", []⟩ ⟨"mockEnv", []⟩ [] [] false
      ⟨.ok "mockApp.local", none, .ok [], .ok "v1.0.0"⟩ 1494505750 1494505743
      "no changes" "some error" 0 (by decide) (by decide)).1⟩
